import Mathlib

/-!
A shallow embedding of the Deep Research Agent plugin for Open WebUI
(`openwebui-plugin/index.js`).

The plugin is a client-side session orchestrator: a map from chat ids to
session records, a WebSocket transport per session, an event dispatcher
turning inbound stream frames into UI mutations, and a query-admission
gate.  The host UI (`webui.*` calls), `fetch`, `console.error`,
`setTimeout` and the WebSocket constructor are external collaborators;
their invocations are modelled as an ordered list of `Effect` values
emitted by each operation.  Network outcomes (`fetch` resolving with an
ok / non-ok response, or rejecting) are inputs to the model.

JavaScript runtime semantics captured by the model:
  - `this.sessions` is a `Map`; modelled as a function `String → Option Session`.
  - session records are mutated in place; modelled by functional update.
  - property access on `undefined` throws a `TypeError`; `JSON.parse` on a
    malformed string throws a `SyntaxError`.  An exception escaping an
    event handler is contained by the host event loop: it does not close
    the WebSocket and later frames are still delivered.  Operations
    therefore return the state as mutated up to the throw point together
    with an `Option JsError`.
  - `Number.prototype.toFixed(2)` is modelled on rationals as rounding to
    the nearest hundredth (half away from zero for nonnegative inputs),
    rendered with exactly two fraction digits.
-/

namespace DeepResearch

/-- One JS exception kind suffices per source site: `JSON.parse` failure
(`SyntaxError`) and property access on `undefined` (`TypeError`). -/
inductive JsError where
  | parseErr
  | typeErr
  deriving DecidableEq

/-- The payload of `eventData.response` in a `research_complete` frame. -/
structure ResponsePayload where
  result : String
  model : String
  provider : String
  process_time : ℚ
  deriving DecidableEq

/-- The payload of `eventData.error` in a `research_error` frame. -/
structure ErrorPayload where
  error : String
  deriving DecidableEq

/-- One replayed message inside a `session_state` frame. -/
structure StateMessage where
  role : String
  content : String
  deriving DecidableEq

/-- The `data` member of an inbound frame; every field is optional, as in
the untyped JSON object of the source. -/
structure EventData where
  token : Option String := none
  tool : Option String := none
  input : Option String := none
  output : Option String := none
  response : Option ResponsePayload := none
  error : Option ErrorPayload := none
  messages : Option (List StateMessage) := none
  deriving DecidableEq

/-- A parsed inbound stream frame `\x7bevent, data\x7d`; `data` is optional and
defaults to the empty object (`data.data || \x7b\x7d` in the source). -/
structure Frame where
  event : String
  data : Option EventData := none
  deriving DecidableEq

/-- Message metadata attached by `webui.updateLastMessage` /
`webui.addAssistantMessage` calls. -/
structure MsgMetadata where
  model : Option String := none
  provider : Option String := none
  process_time : Option String := none
  error : Bool := false
  deriving DecidableEq

/-- Every call the plugin makes to an external collaborator, in program
order: the `webui.*` UI primitives, the three backend HTTP requests, the
WebSocket constructor and `close()`, the reconnect timer, and
`console.error`. -/
inductive Effect where
  | updateLastMessage (chatId : String) (content : Option String)
      (append : Option String) (done : Bool) (metadata : Option MsgMetadata)
  | updateChatStatus (chatId : String) (status : String)
  | addAssistantMessage (chatId : String) (content : String)
      (done : Option Bool) (metadata : Option MsgMetadata)
  | addThinkingMessage (chatId : String) (content : String)
  | addSystemMessage (chatId : String) (content : String)
  | addUserMessage (chatId : String) (content : String)
  | fetchCreateSession (sessionId : String)
  | fetchQuery (query : String) (sessionId : String)
  | fetchDeleteSession (sessionId : String)
  | closeWebSocket (connId : Nat)
  | openWebSocket (url : String) (connId : Nat)
  | scheduleReconnect (delayMs : Nat) (chatId : String) (sessionId : String)
  | consoleError (message : String)
  deriving DecidableEq

/-- A WebSocket handle created by `connectWebSocket`.  `live` records
whether its listeners can still deliver events (`close()` and the
transport close signal clear it); `sessionId` is the stream path the
socket is connected to. -/
structure Conn where
  id : Nat
  sessionId : String
  live : Bool
  deriving DecidableEq

/-- One session record, as stored in `this.sessions`:
`\x7bsessionId, websocket, status\x7d`.  `status` holds the source's string
values `"idle"`, `"processing"`, `"error"`. -/
structure Session where
  sessionId : String
  websocket : Option Nat
  status : String
  deriving DecidableEq

/-- The plugin's state: the session `Map` keyed by chat id, the set of
WebSocket handles ever created (with liveness), a fresh-id counter for
handles, and the configured backend base endpoint. -/
structure PluginState where
  sessions : String → Option Session
  conns : List Conn
  nextConnId : Nat
  apiEndpoint : String

/-- `this.sessions.get(chatId)`. -/
def getSession (st : PluginState) (chatId : String) : Option Session :=
  st.sessions chatId

/-- `this.sessions.set(chatId, s)`. -/
def setSession (st : PluginState) (chatId : String) (s : Session) : PluginState :=
  { st with sessions := fun c => if c == chatId then some s else st.sessions c }

/-- `this.sessions.delete(chatId)`. -/
def removeSession (st : PluginState) (chatId : String) : PluginState :=
  { st with sessions := fun c => if c == chatId then none else st.sessions c }

/-- `this.sessions.has(chatId)`. -/
def hasSession (st : PluginState) (chatId : String) : Bool :=
  (st.sessions chatId).isSome

/-- `ws.close()` on the handle with id `cid`: its listeners go dead. -/
def closeConn (conns : List Conn) (cid : Nat) : List Conn :=
  conns.map fun c => if c.id == cid then { c with live := false } else c

/-- JS template-literal interpolation of a possibly-`undefined` value. -/
def jsShow (o : Option String) : String :=
  match o with
  | some s => s
  | none => "undefined"

/-- `Number.prototype.toFixed(2)` on a nonnegative rational: round to the
nearest hundredth (half away from zero) and print two fraction digits. -/
def toFixed2 (q : ℚ) : String :=
  toString (⌊q * 100 + 1 / 2⌋ / 100) ++ "." ++
    (if (⌊q * 100 + 1 / 2⌋ % 100).toNat < 10
     then "0" ++ toString (⌊q * 100 + 1 / 2⌋ % 100).toNat
     else toString (⌊q * 100 + 1 / 2⌋ % 100).toNat)

/-- `connectWebSocket(chatId, sessionId)` (index.js:121-160): look the
session up (return if absent), close the prior socket if any, create a
new socket on `ws://…/ws/sessionId` and store it in `session.websocket`.
The new handle gets the fresh id `st.nextConnId`.  (JS `replace` swaps
the first occurrence of `"http"`; the model's `String.replace` swaps all,
which coincides on endpoints containing it once.) -/
def connectWebSocket (st : PluginState) (chatId : String) (sessionId : String) :
    PluginState × List Effect :=
  match getSession st chatId with
  | none => (st, [])
  | some session =>
    let closeStep : List Conn × List Effect :=
      match session.websocket with
      | some cid => (closeConn st.conns cid, [Effect.closeWebSocket cid])
      | none => (st.conns, [])
    let wsUrl := (st.apiEndpoint.replace "http" "ws") ++ "/ws/" ++ sessionId
    let newConn : Conn := { id := st.nextConnId, sessionId := sessionId, live := true }
    let st1 : PluginState :=
      { st with conns := closeStep.1 ++ [newConn], nextConnId := st.nextConnId + 1 }
    let st2 := setSession st1 chatId { session with websocket := some st.nextConnId }
    (st2, closeStep.2 ++ [Effect.openWebSocket wsUrl st.nextConnId])

/-- `handleWebSocketMessage(chatId, data)` (index.js:162-275): drop the
frame if the session is gone, read `data.data || \x7b\x7d`, then dispatch on
`data.event`.  Returns the state as mutated up to any throw point, the
emitted effects, and the JS exception if one escaped (property access on
a missing `response` / `error` payload). -/
def handleWebSocketMessage (st : PluginState) (chatId : String) (frame : Frame) :
    PluginState × List Effect × Option JsError :=
  match getSession st chatId with
  | none => (st, [], none)
  | some session =>
    let eventData := frame.data.getD {}
    if frame.event == "token" then
      (st, [Effect.updateLastMessage chatId none eventData.token false none], none)
    else if frame.event == "research_start" then
      (setSession st chatId { session with status := "processing" },
       [Effect.updateChatStatus chatId "typing",
        Effect.addAssistantMessage chatId "Researching..." none
          (some { model := some "DeepSeek-R1", provider := some "Groq/Ollama" })],
       none)
    else if frame.event == "tool_start" then
      (st, [Effect.addThinkingMessage chatId
              ("Using tool: " ++ jsShow eventData.tool ++ "\nInput: "
                ++ jsShow eventData.input)], none)
    else if frame.event == "tool_end" then
      (st, [Effect.addThinkingMessage chatId
              ("Tool result: " ++ jsShow eventData.output)], none)
    else if frame.event == "research_complete" then
      let st1 := setSession st chatId { session with status := "idle" }
      let effs := [Effect.updateChatStatus chatId "idle"]
      match eventData.response with
      | none => (st1, effs, some JsError.typeErr)
      | some r =>
        (st1,
         effs ++ [Effect.updateLastMessage chatId (some r.result) none true
           (some { model := some r.model, provider := some r.provider,
                   process_time := some (toFixed2 r.process_time ++ "s") })],
         none)
    else if frame.event == "research_error" then
      let st1 := setSession st chatId { session with status := "error" }
      let effs := [Effect.updateChatStatus chatId "idle"]
      match eventData.error with
      | none => (st1, effs, some JsError.typeErr)
      | some e =>
        (st1,
         effs ++ [Effect.updateLastMessage chatId (some ("Error: " ++ e.error))
           none true (some { error := true })],
         none)
    else if frame.event == "session_state" then
      (st,
       (eventData.messages.getD []).filterMap fun m =>
         if m.role == "user" then some (Effect.addUserMessage chatId m.content)
         else if m.role == "assistant" then
           some (Effect.addAssistantMessage chatId m.content (some true) none)
         else none,
       none)
    else
      (st, [], none)

/-- The informational message shown on an admission conflict. -/
def busyMessage : String :=
  "Please wait for the current research to complete before submitting a new query."

/-- `handleResearchQuery(chatId, message)` (index.js:277-323).
`queryResult` is the outcome of `fetch` on `/api/query`: `Except.ok ()`
when it resolves with `response.ok`; `Except.error m` when it rejects
with message `m` or resolves non-ok (the source then throws
`"Failed to submit research query"`, caught by the same `catch`). -/
def handleResearchQuery (st : PluginState) (chatId : String) (message : String)
    (queryResult : Except String Unit) : PluginState × List Effect :=
  match getSession st chatId with
  | none => (st, [])
  | some session =>
    if session.status == "processing" then
      (st, [Effect.addSystemMessage chatId busyMessage])
    else
      let effs := [Effect.addUserMessage chatId message,
                   Effect.fetchQuery message session.sessionId]
      match queryResult with
      | Except.ok _ =>
        (setSession st chatId { session with status := "processing" }, effs)
      | Except.error m =>
        (st, effs ++ [Effect.consoleError ("Error submitting research query: " ++ m),
                      Effect.addSystemMessage chatId ("Error: " ++ m)])

/-- `cleanupSession(chatId)` (index.js:325-345): close the socket if any,
`DELETE` the backend session (failure only logged), remove the `Map`
entry.  `deleteOk` is whether the `DELETE` fetch resolved. -/
def cleanupSession (st : PluginState) (chatId : String) (deleteOk : Bool) :
    PluginState × List Effect :=
  match getSession st chatId with
  | none => (st, [])
  | some session =>
    let closeStep : List Conn × List Effect :=
      match session.websocket with
      | some cid => (closeConn st.conns cid, [Effect.closeWebSocket cid])
      | none => (st.conns, [])
    let deleteEffs :=
      [Effect.fetchDeleteSession session.sessionId] ++
        (if deleteOk then [] else [Effect.consoleError "Error deleting session:"])
    (removeSession { st with conns := closeStep.1 } chatId,
     closeStep.2 ++ deleteEffs)

/-- The welcome text of `createResearchChat`. -/
def welcomeMessage : String :=
  "Welcome to the Deep Research Assistant! Ask me any research question, and I\x27ll provide a comprehensive answer using Groq\x27s DeepSeek-R1 model and Perplexica search."

/-- `createResearchChat` (index.js:67-115), after the host UI created the
chat surface (`chatId` and the generated `sessionId` are inputs).
`provisionOk` is whether the `POST /api/sessions` fetch resolved: on
success the session record is stored, the socket connected and a welcome
message shown; on failure the `catch` logs, shows an error message, and
no record is stored.  Returns the final state, effects and the returned
`chatId`. -/
def createResearchChat (st : PluginState) (chatId : String) (sessionId : String)
    (provisionOk : Bool) : PluginState × List Effect × String :=
  if provisionOk then
    let st1 := setSession st chatId
      { sessionId := sessionId, websocket := none, status := "idle" }
    let conn := connectWebSocket st1 chatId sessionId
    (conn.1,
     [Effect.fetchCreateSession sessionId] ++ conn.2
       ++ [Effect.addSystemMessage chatId welcomeMessage],
     chatId)
  else
    (st,
     [Effect.fetchCreateSession sessionId,
      Effect.consoleError "Failed to create research session:",
      Effect.addSystemMessage chatId
        "Error: Failed to initialize research session. Please try again."],
     chatId)

/-- The `message:send` host hook (index.js:48-56): intercept (and
`preventDefault`) only when the chat id is in the session map.  The
`Bool` result records whether the message was intercepted. -/
def onMessageSend (st : PluginState) (chatId : String) (message : String)
    (queryResult : Except String Unit) : PluginState × List Effect × Bool :=
  if hasSession st chatId then
    let r := handleResearchQuery st chatId message queryResult
    (r.1, r.2, true)
  else
    (st, [], false)

/-- The `chat:delete` host hook (index.js:59-64). -/
def onChatDelete (st : PluginState) (chatId : String) (deleteOk : Bool) :
    PluginState × List Effect :=
  if hasSession st chatId then cleanupSession st chatId deleteOk else (st, [])

/-- The `ws.onclose` handler (index.js:147-156): if the session is still
in the map, schedule `connectWebSocket` again after 5000 ms; otherwise do
nothing.  The timer is the only effect — the state is untouched. -/
def onCloseWebSocket (st : PluginState) (chatId : String) (sessionId : String) :
    PluginState × List Effect :=
  (st,
   if hasSession st chatId then
     [Effect.scheduleReconnect 5000 chatId sessionId]
   else [])

/-- A raw inbound frame as handed to `ws.onmessage`: either a string
`JSON.parse` rejects (`malformed`), or one parsing to a `Frame`. -/
inductive RawFrame where
  | malformed (raw : String)
  | valid (f : Frame)
  deriving DecidableEq

/-- `ws.onmessage` (index.js:138-141): `JSON.parse(event.data)` throws a
`SyntaxError` on a malformed frame — before any state is read or any
effect emitted — and the dispatcher runs otherwise. -/
def onRawMessage (st : PluginState) (chatId : String) (r : RawFrame) :
    PluginState × List Effect × Option JsError :=
  match r with
  | RawFrame.malformed _ => (st, [], some JsError.parseErr)
  | RawFrame.valid f => handleWebSocketMessage st chatId f

/-- The host event loop delivering a sequence of frames to `ws.onmessage`:
an exception escaping one (async) handler invocation is contained — it is
collected, the socket stays open, and the next frame is delivered. -/
def processFrames (st : PluginState) (chatId : String) :
    List RawFrame → PluginState × List Effect × List JsError
  | [] => (st, [], [])
  | r :: rest =>
    let h := onRawMessage st chatId r
    let k := processFrames h.1 chatId rest
    (k.1, h.2.1 ++ k.2.1, h.2.2.toList ++ k.2.2)

/-- One operation of the plugin targeting a given chat id: every code
path that can touch a session record or the session map. -/
inductive Op where
  | create (sessionId : String) (provisionOk : Bool)
  | query (message : String) (queryResult : Except String Unit)
  | wsMsg (frame : Frame)
  | wsClose (sessionId : String)
  | connect (sessionId : String)
  | delete (deleteOk : Bool)

/-- The state reached by running one operation against chat `chatId`. -/
def step (st : PluginState) (chatId : String) : Op → PluginState
  | Op.create sid ok => (createResearchChat st chatId sid ok).1
  | Op.query m r => (handleResearchQuery st chatId m r).1
  | Op.wsMsg f => (handleWebSocketMessage st chatId f).1
  | Op.wsClose sid => (onCloseWebSocket st chatId sid).1
  | Op.connect sid => (connectWebSocket st chatId sid).1
  | Op.delete ok => (onChatDelete st chatId ok).1

/-- The `status` field of the session stored for `chatId`, if any. -/
def statusOf (st : PluginState) (chatId : String) : Option String :=
  (getSession st chatId).map Session.status

/-- The live WebSocket handles connected to the stream of `sessionId`. -/
def liveConnsFor (st : PluginState) (sessionId : String) : List Conn :=
  st.conns.filter fun c => c.live && c.sessionId == sessionId

end DeepResearch

namespace DeepResearch

/-! ### Derived notions and concrete example states -/

/-- The ids of the socket handles whose listeners are still live. -/
def liveIds (st : PluginState) : List Nat :=
  (st.conns.filter fun c => c.live).map Conn.id

/-- The transition relation claimed by the spec's property list: `status`
changes only along Idle → Processing and Processing → Idle. -/
def ClaimedTransition (s s' : String) : Prop :=
  s' = s ∨ (s = "idle" ∧ s' = "processing") ∨ (s = "processing" ∧ s' = "idle")

/-- The transition relation the code actually implements: unchanged, or
to `"processing"` on a successfully submitted admitted query or a
`research_start` frame, or to `"idle"` on a `research_complete` frame or
a successful re-creation of the chat, or to `"error"` on a
`research_error` frame. -/
def AllowedStep (op : Op) (s s' : String) : Prop :=
  s' = s
  ∨ (s' = "processing" ∧
      ((∃ m, op = Op.query m (Except.ok ()) ∧ s ≠ "processing")
        ∨ (∃ f, op = Op.wsMsg f ∧ f.event = "research_start")))
  ∨ (s' = "idle" ∧
      ((∃ f, op = Op.wsMsg f ∧ f.event = "research_complete")
        ∨ (∃ sid, op = Op.create sid true)))
  ∨ (s' = "error" ∧ (∃ f, op = Op.wsMsg f ∧ f.event = "research_error"))

/-- A state holding one idle session `"c1"` with a live socket handle 0. -/
def exIdle : PluginState :=
  { sessions := fun c =>
      if c == "c1" then some { sessionId := "s1", websocket := some 0, status := "idle" }
      else none,
    conns := [{ id := 0, sessionId := "s1", live := true }],
    nextConnId := 1,
    apiEndpoint := "http://localhost:8000" }

/-- Like `exIdle` but the session is mid-research (`"processing"`). -/
def exProcessing : PluginState :=
  { sessions := fun c =>
      if c == "c1" then some { sessionId := "s1", websocket := some 0, status := "processing" }
      else none,
    conns := [{ id := 0, sessionId := "s1", live := true }],
    nextConnId := 1,
    apiEndpoint := "http://localhost:8000" }

/-- Like `exIdle` but a backend `research_error` has set status `"error"`. -/
def exError : PluginState :=
  { sessions := fun c =>
      if c == "c1" then some { sessionId := "s1", websocket := some 0, status := "error" }
      else none,
    conns := [{ id := 0, sessionId := "s1", live := true }],
    nextConnId := 1,
    apiEndpoint := "http://localhost:8000" }

/-- A state with an empty session map. -/
def stEmpty : PluginState :=
  { sessions := fun _ => none, conns := [], nextConnId := 0,
    apiEndpoint := "http://localhost:8000" }

/-! ### Helper lemmas -/

theorem getSession_setSession_self (st : PluginState) (c : String) (s : Session) :
    getSession (setSession st c s) c = some s := by
  simp [getSession, setSession]

theorem statusOf_setSession_self (st : PluginState) (c : String) (s : Session) :
    statusOf (setSession st c s) c = some s.status := by
  simp [statusOf, getSession, setSession]

theorem statusOf_connectWebSocket_self (st : PluginState) (c sid : String) :
    statusOf (connectWebSocket st c sid).1 c = statusOf st c := by
  cases h : getSession st c with
  | none => simp [connectWebSocket, h]
  | some session =>
      simp [connectWebSocket, h, statusOf, getSession, setSession]
      simp [getSession] at h
      simp [h]

/-! ### C2: malformed frames are discarded without teardown -/

/-- C2: a stream frame that fails `JSON.parse` is discarded — the handler
throws a `SyntaxError` that the event loop contains, the plugin state
(including socket liveness) is unchanged, no effect (in particular no
socket close) is emitted — and the frames after it are processed exactly
as if the malformed frame had never arrived. -/
theorem malformed_frame_discarded (st : PluginState) (chatId raw : String)
    (rest : List RawFrame) :
    onRawMessage st chatId (RawFrame.malformed raw) = (st, [], some JsError.parseErr) ∧
    processFrames st chatId (RawFrame.malformed raw :: rest) =
      ((processFrames st chatId rest).1,
       (processFrames st chatId rest).2.1,
       JsError.parseErr :: (processFrames st chatId rest).2.2) := by
  refine ⟨rfl, ?_⟩
  simp [processFrames, onRawMessage]

/-! ### C3: busy sessions reject new queries -/

/-- C3: submitting a query while the session's status is `"processing"`
leaves the state unchanged and emits exactly one effect — the
informational busy message — so no HTTP request is issued. -/
theorem busy_query_rejected (st : PluginState) (chatId message : String)
    (queryResult : Except String Unit) (session : Session)
    (hs : getSession st chatId = some session)
    (hp : session.status = "processing") :
    handleResearchQuery st chatId message queryResult =
      (st, [Effect.addSystemMessage chatId busyMessage]) := by
  simp [handleResearchQuery, hs, hp]

/-- Witness for C3 at a concrete busy state. -/
theorem busy_query_rejected_witness :
    handleResearchQuery exProcessing "c1" "next question" (Except.ok ()) =
      (exProcessing, [Effect.addSystemMessage "c1" busyMessage]) :=
  busy_query_rejected exProcessing "c1" "next question" (Except.ok ())
    { sessionId := "s1", websocket := some 0, status := "processing" } rfl rfl

/-! ### C5: reconnect scheduling on transport close -/

/-- C5: when the transport closes, the handler leaves the state untouched
and schedules exactly one reconnect, with a 5000 ms delay, precisely when
the chat id is still in the session map; when the session is gone it
schedules nothing, and a timer that fires after removal finds
`connectWebSocket` a no-op. -/
theorem close_reconnect_policy (st : PluginState) (chatId sessionId : String) :
    (onCloseWebSocket st chatId sessionId).1 = st ∧
    (hasSession st chatId = true →
      (onCloseWebSocket st chatId sessionId).2 =
        [Effect.scheduleReconnect 5000 chatId sessionId]) ∧
    (hasSession st chatId = false →
      (onCloseWebSocket st chatId sessionId).2 = [] ∧
      connectWebSocket st chatId sessionId = (st, [])) := by
  refine ⟨rfl, fun h => by simp [onCloseWebSocket, h], fun h => ⟨by simp [onCloseWebSocket, h], ?_⟩⟩
  have hn : getSession st chatId = none := by
    simp [hasSession, Option.isSome_iff_exists] at h
    simp [getSession, h]
  simp [connectWebSocket, hn]

/-- Witness for C5: with the session present a 5000 ms reconnect is
scheduled; with it absent nothing is scheduled and the timer body is a
no-op. -/
theorem close_reconnect_policy_witness :
    (onCloseWebSocket exProcessing "c1" "s1").2 =
      [Effect.scheduleReconnect 5000 "c1" "s1"] ∧
    (onCloseWebSocket stEmpty "c1" "s1").2 = [] ∧
    connectWebSocket stEmpty "c1" "s1" = (stEmpty, []) := by
  refine ⟨(close_reconnect_policy exProcessing "c1" "s1").2.1 rfl, ?_, ?_⟩
  · exact ((close_reconnect_policy stEmpty "c1" "s1").2.2 rfl).1
  · exact ((close_reconnect_policy stEmpty "c1" "s1").2.2 rfl).2

end DeepResearch

namespace DeepResearch

/-! ### C7: deletion always cleans up locally -/

/-- C7: deleting a session closes its socket first, issues the
best-effort backend `DELETE` (its failure adds only a log effect), and in
every case — `deleteOk` either way — the `Map` entry for the chat id is
removed and nothing is surfaced to the user. -/
theorem cleanup_always_removes (st : PluginState) (chatId : String) (deleteOk : Bool)
    (session : Session) (cid : Nat)
    (hs : getSession st chatId = some session)
    (hw : session.websocket = some cid) :
    (cleanupSession st chatId deleteOk).1.sessions chatId = none ∧
    (cleanupSession st chatId deleteOk).2 =
      [Effect.closeWebSocket cid, Effect.fetchDeleteSession session.sessionId] ++
        (if deleteOk then [] else [Effect.consoleError "Error deleting session:"]) := by
  constructor
  · simp [cleanupSession, hs, hw, removeSession]
  · simp [cleanupSession, hs, hw]

/-- Witness for C7 in the interesting case: the backend `DELETE` fails,
yet the entry is removed, the socket closed, and the failure only logged. -/
theorem cleanup_always_removes_witness :
    (cleanupSession exProcessing "c1" false).1.sessions "c1" = none ∧
    (cleanupSession exProcessing "c1" false).2 =
      [Effect.closeWebSocket 0, Effect.fetchDeleteSession "s1",
       Effect.consoleError "Error deleting session:"] := by
  have h := cleanup_always_removes exProcessing "c1" false
    { sessionId := "s1", websocket := some 0, status := "processing" } 0 rfl rfl
  simpa using h

/-! ### C9: terminal events need their payload -/

/-- C9: dispatching `research_complete` without a `response` object (the
`data` member absent or empty defaults to the empty object), or
`research_error` without an `error` object, throws a `TypeError` out of
the handler instead of discarding the event; with the full payload
present the handler finishes without an exception. -/
theorem terminal_event_payload_totality (st : PluginState) (chatId : String)
    (session : Session) (rp : ResponsePayload) (ep : ErrorPayload)
    (hs : getSession st chatId = some session) :
    (handleWebSocketMessage st chatId { event := "research_complete" }).2.2
      = some JsError.typeErr ∧
    (handleWebSocketMessage st chatId { event := "research_error", data := some {} }).2.2
      = some JsError.typeErr ∧
    (handleWebSocketMessage st chatId
        { event := "research_complete", data := some { response := some rp } }).2.2
      = none ∧
    (handleWebSocketMessage st chatId
        { event := "research_error", data := some { error := some ep } }).2.2
      = none := by
  refine ⟨?_, ?_, ?_, ?_⟩ <;> simp [handleWebSocketMessage, hs]

/-- Witness for C9 at a concrete session and payload. -/
theorem terminal_event_payload_totality_witness :
    (handleWebSocketMessage exProcessing "c1" { event := "research_complete" }).2.2
      = some JsError.typeErr ∧
    (handleWebSocketMessage exProcessing "c1"
        { event := "research_error", data := some {} }).2.2 = some JsError.typeErr ∧
    (handleWebSocketMessage exProcessing "c1"
        { event := "research_complete",
          data := some { response := some {
            result := "r", model := "m", provider := "p", process_time := 1 } } }).2.2
      = none ∧
    (handleWebSocketMessage exProcessing "c1"
        { event := "research_error",
          data := some { error := some { error := "e" } } }).2.2 = none :=
  terminal_event_payload_totality exProcessing "c1"
    { sessionId := "s1", websocket := some 0, status := "processing" }
    { result := "r", model := "m", provider := "p", process_time := 1 }
    { error := "e" } rfl

/-! ### C10: failed provisioning leaves the chat outside the pipeline -/

/-- C10: when backend provisioning fails, `createResearchChat` stores no
session record and opens no socket — the state is exactly the input state
and the only effects are the failed `POST`, a log line and the chat error
message.  With no entry for the chat id, a submitted message is not
intercepted and changes nothing, a stream event is a no-op, and deletion
is a no-op. -/
theorem degraded_chat_bypasses (st : PluginState) (chatId sid message : String)
    (queryResult : Except String Unit) (frame : Frame) (deleteOk : Bool)
    (hs : st.sessions chatId = none) :
    createResearchChat st chatId sid false =
      (st, [Effect.fetchCreateSession sid,
            Effect.consoleError "Failed to create research session:",
            Effect.addSystemMessage chatId
              "Error: Failed to initialize research session. Please try again."],
       chatId) ∧
    onMessageSend st chatId message queryResult = (st, [], false) ∧
    handleWebSocketMessage st chatId frame = (st, [], none) ∧
    onChatDelete st chatId deleteOk = (st, []) := by
  refine ⟨rfl, ?_, ?_, ?_⟩ <;>
    simp [onMessageSend, handleWebSocketMessage, onChatDelete, hasSession,
      getSession, hs]

/-- Witness for C10 on the empty state. -/
theorem degraded_chat_bypasses_witness :
    createResearchChat stEmpty "c9" "s9" false =
      (stEmpty, [Effect.fetchCreateSession "s9",
                 Effect.consoleError "Failed to create research session:",
                 Effect.addSystemMessage "c9"
                   "Error: Failed to initialize research session. Please try again."],
       "c9") ∧
    onMessageSend stEmpty "c9" "hello" (Except.ok ()) = (stEmpty, [], false) ∧
    handleWebSocketMessage stEmpty "c9" { event := "research_start" } = (stEmpty, [], none) ∧
    onChatDelete stEmpty "c9" true = (stEmpty, []) :=
  degraded_chat_bypasses stEmpty "c9" "s9" "hello" (Except.ok ())
    { event := "research_start" } true rfl

/-! ### C8: research_complete finalizes the message and the session -/

/-- C8: on a `research_complete` frame carrying a full response, the
session's status becomes `"idle"` and the emitted effects are exactly the
status indicator reset followed by the final `updateLastMessage` — the
content replaced by the result, `done` true, and metadata carrying the
model, the provider, and the process time rendered by `toFixed2` with an
`"s"` suffix; no exception escapes. -/
theorem research_complete_finalizes (st : PluginState) (chatId : String)
    (session : Session) (res mdl prov : String) (t : ℚ)
    (hs : getSession st chatId = some session) :
    handleWebSocketMessage st chatId
        { event := "research_complete",
          data := some { response := some {
            result := res, model := mdl, provider := prov, process_time := t } } } =
      (setSession st chatId { session with status := "idle" },
       [Effect.updateChatStatus chatId "idle",
        Effect.updateLastMessage chatId (some res) none true
          (some { model := some mdl, provider := some prov,
                  process_time := some (toFixed2 t ++ "s") })],
       none) ∧
    statusOf (handleWebSocketMessage st chatId
        { event := "research_complete",
          data := some { response := some {
            result := res, model := mdl, provider := prov, process_time := t } } }).1
        chatId = some "idle" := by
  constructor
  · simp [handleWebSocketMessage, hs]
  · simp [handleWebSocketMessage, hs, statusOf_setSession_self]

/-- Witness for C8 at `process_time = 1.234`: the metadata string is
`"1.23s"` and the status returns to idle. -/
theorem research_complete_finalizes_witness :
    (handleWebSocketMessage exProcessing "c1"
        { event := "research_complete",
          data := some { response := some {
            result := "Answer.", model := "m", provider := "p",
            process_time := 1234/1000 } } }).2.1 =
      [Effect.updateChatStatus "c1" "idle",
       Effect.updateLastMessage "c1" (some "Answer.") none true
         (some { model := some "m", provider := some "p",
                 process_time := some "1.23s" })] ∧
    statusOf (handleWebSocketMessage exProcessing "c1"
        { event := "research_complete",
          data := some { response := some {
            result := "Answer.", model := "m", provider := "p",
            process_time := 1234/1000 } } }).1 "c1" = some "idle" := by
  have h := research_complete_finalizes exProcessing "c1"
    { sessionId := "s1", websocket := some 0, status := "processing" }
    "Answer." "m" "p" (1234/1000) rfl
  have ht : toFixed2 (1234/1000 : ℚ) = "1.23" := by
    have hf : (⌊(1234/1000 : ℚ) * 100 + 1/2⌋ : ℤ) = 123 := by norm_num
    simp only [toFixed2, hf]
    decide
  refine ⟨?_, h.2⟩
  rw [h.1]
  simp [ht]

end DeepResearch

namespace DeepResearch

/-! ### C4: status after a failed query submission -/

/-- C4 counterexample: with the session in status `"error"` (reachable
via a backend `research_error`), a query is admitted and the `/api/query`
request is issued; when it fails, the status afterwards is `"error"`,
not `"idle"` — the claimed revert to Idle does not happen. -/
theorem query_failure_revert_counterexample :
    statusOf exError "c1" = some "error" ∧
    Effect.fetchQuery "q" "s1" ∈
      (handleResearchQuery exError "c1" "q" (Except.error "network down")).2 ∧
    ¬ statusOf (handleResearchQuery exError "c1" "q"
        (Except.error "network down")).1 "c1" = some "idle" := by
  decide

/-- C4 amended: on an admitted query (status not `"processing"`), a
successful submission sets the status to `"processing"` — before any
backend stream event; a failed submission leaves the whole state
unchanged (so the status keeps its admission-time value, Idle exactly
when it was Idle), after the request was issued, and the failure is
surfaced as a chat-visible error message. -/
theorem query_admission_status (st : PluginState) (chatId message errMsg : String)
    (session : Session) (hs : getSession st chatId = some session)
    (hnp : session.status ≠ "processing") :
    statusOf (handleResearchQuery st chatId message (Except.ok ())).1 chatId
      = some "processing" ∧
    (handleResearchQuery st chatId message (Except.error errMsg)).1 = st ∧
    Effect.fetchQuery message session.sessionId ∈
      (handleResearchQuery st chatId message (Except.error errMsg)).2 ∧
    Effect.addSystemMessage chatId ("Error: " ++ errMsg) ∈
      (handleResearchQuery st chatId message (Except.error errMsg)).2 := by
  have hb : (session.status == "processing") = false := by
    simpa using hnp
  refine ⟨?_, ?_, ?_, ?_⟩ <;>
    simp [handleResearchQuery, hs, hb, statusOf_setSession_self]

/-- Witness for C4 (amended) at a concrete idle session. -/
theorem query_admission_status_witness :
    statusOf (handleResearchQuery exIdle "c1" "q" (Except.ok ())).1 "c1"
      = some "processing" ∧
    (handleResearchQuery exIdle "c1" "q" (Except.error "down")).1 = exIdle ∧
    Effect.fetchQuery "q" "s1" ∈
      (handleResearchQuery exIdle "c1" "q" (Except.error "down")).2 ∧
    Effect.addSystemMessage "c1" ("Error: " ++ "down") ∈
      (handleResearchQuery exIdle "c1" "q" (Except.error "down")).2 :=
  query_admission_status exIdle "c1" "q" "down"
    { sessionId := "s1", websocket := some 0, status := "idle" } rfl (by decide)

/-! ### C1: the reachable status transitions -/

/-- C1 counterexample: from `"processing"`, a `research_error` frame
drives the status to `"error"` — a transition outside the claimed set
(Idle → Processing, Processing → Idle). -/
theorem status_transition_counterexample :
    statusOf exProcessing "c1" = some "processing" ∧
    statusOf (step exProcessing "c1"
        (Op.wsMsg { event := "research_error",
                    data := some { error := some { error := "boom" } } })) "c1"
      = some "error" ∧
    ¬ ClaimedTransition "processing" "error" := by
  refine ⟨rfl, by decide, ?_⟩
  intro h
  rcases h with h | ⟨h1, h2⟩ | ⟨h1, h2⟩ <;> simp_all

end DeepResearch

namespace DeepResearch

/-- The session status after dispatching one frame: `"processing"` after
`research_start`, `"idle"` after `research_complete`, `"error"` after
`research_error` (in the terminal cases even when the payload is missing,
since the source mutates `session.status` before reading the payload),
and unchanged for every other event kind. -/
theorem statusOf_handleWS (st : PluginState) (chatId : String) (f : Frame)
    (session : Session) (hs : getSession st chatId = some session) :
    statusOf (handleWebSocketMessage st chatId f).1 chatId =
      if f.event == "research_start" then some "processing"
      else if f.event == "research_complete" then some "idle"
      else if f.event == "research_error" then some "error"
      else statusOf st chatId := by
  by_cases h1 : f.event = "token"
  · simp [handleWebSocketMessage, hs, h1]
  · by_cases h2 : f.event = "research_start"
    · simp [handleWebSocketMessage, hs, h2, statusOf_setSession_self]
    · by_cases h3 : f.event = "tool_start"
      · simp [handleWebSocketMessage, hs, h1, h2, h3]
      · by_cases h4 : f.event = "tool_end"
        · simp [handleWebSocketMessage, hs, h1, h2, h3, h4]
        · by_cases h5 : f.event = "research_complete"
          · cases hr : (f.data.getD {}).response <;>
              simp [handleWebSocketMessage, hs, h1, h2, h3, h4, h5, hr,
                statusOf_setSession_self]
          · by_cases h6 : f.event = "research_error"
            · cases hr : (f.data.getD {}).error <;>
                simp [handleWebSocketMessage, hs, h1, h2, h3, h4, h5, h6, hr,
                  statusOf_setSession_self]
            · by_cases h7 : f.event = "session_state"
              · simp [handleWebSocketMessage, hs, h1, h2, h3, h4, h5, h6, h7]
              · simp [handleWebSocketMessage, hs, h1, h2, h3, h4, h5, h6, h7]

/-- C1 amended: across every operation and inbound event, a session's
status either stays unchanged or moves to `"processing"` on a
successfully submitted admitted query or a `research_start` frame, to
`"idle"` on a `research_complete` frame (or a successful re-creation of
the chat), or to `"error"` on a `research_error` frame — in particular
`research_error` ends in Error, not Idle, and both Error → Processing and
Error → Idle are reachable. -/
theorem status_transitions (st : PluginState) (chatId : String) (op : Op)
    (s s' : String) (h1 : statusOf st chatId = some s)
    (h2 : statusOf (step st chatId op) chatId = some s') :
    AllowedStep op s s' := by
  obtain ⟨session, hs, hss⟩ : ∃ session, getSession st chatId = some session ∧
      session.status = s := by
    cases hx : st.sessions chatId with
    | none => simp [statusOf, getSession, hx] at h1
    | some sess =>
        refine ⟨sess, by simp [getSession, hx], ?_⟩
        simpa [statusOf, getSession, hx] using h1
  cases op with
  | create sid ok =>
      cases ok with
      | false =>
          have hst : step st chatId (Op.create sid false) = st := rfl
          rw [hst, h1] at h2
          exact Or.inl (Option.some.inj h2).symm
      | true =>
          have hst : statusOf (step st chatId (Op.create sid true)) chatId
              = some "idle" := by
            simp only [step, createResearchChat, if_pos]
            rw [statusOf_connectWebSocket_self, statusOf_setSession_self]
          rw [hst] at h2
          exact Or.inr (Or.inr (Or.inl ⟨(Option.some.inj h2).symm, Or.inr ⟨sid, rfl⟩⟩))
  | query m r =>
      simp only [step, handleResearchQuery, hs] at h2
      by_cases hp : (session.status == "processing") = true
      · rw [if_pos hp] at h2
        rw [h1] at h2
        exact Or.inl (Option.some.inj h2).symm
      · cases r with
        | ok u =>
            cases u
            simp only [if_neg hp] at h2
            rw [statusOf_setSession_self] at h2
            have hneq : s ≠ "processing" := by
              intro hcontra
              apply hp
              rw [hss, hcontra]
              simp
            exact Or.inr (Or.inl ⟨(Option.some.inj h2).symm, Or.inl ⟨m, rfl, hneq⟩⟩)
        | error e =>
            simp only [if_neg hp] at h2
            rw [h1] at h2
            exact Or.inl (Option.some.inj h2).symm
  | wsMsg f =>
      have hws := statusOf_handleWS st chatId f session hs
      simp only [step] at h2
      rw [hws] at h2
      by_cases e1 : (f.event == "research_start") = true
      · rw [if_pos e1] at h2
        exact Or.inr (Or.inl ⟨(Option.some.inj h2).symm, Or.inr ⟨f, rfl, by simpa using e1⟩⟩)
      · rw [if_neg e1] at h2
        by_cases e2 : (f.event == "research_complete") = true
        · rw [if_pos e2] at h2
          exact Or.inr (Or.inr (Or.inl ⟨(Option.some.inj h2).symm,
            Or.inl ⟨f, rfl, by simpa using e2⟩⟩))
        · rw [if_neg e2] at h2
          by_cases e3 : (f.event == "research_error") = true
          · rw [if_pos e3] at h2
            exact Or.inr (Or.inr (Or.inr ⟨(Option.some.inj h2).symm,
              f, rfl, by simpa using e3⟩))
          · rw [if_neg e3] at h2
            rw [h1] at h2
            exact Or.inl (Option.some.inj h2).symm
  | wsClose sid =>
      have hst : step st chatId (Op.wsClose sid) = st := rfl
      rw [hst, h1] at h2
      exact Or.inl (Option.some.inj h2).symm
  | connect sid =>
      simp only [step] at h2
      rw [statusOf_connectWebSocket_self, h1] at h2
      exact Or.inl (Option.some.inj h2).symm
  | delete ok =>
      have hhas : hasSession st chatId = true := by
        have hx : st.sessions chatId = some session := hs
        simp [hasSession, hx]
      have hnone : statusOf (step st chatId (Op.delete ok)) chatId = none := by
        have hx : st.sessions chatId = some session := hs
        simp only [step, onChatDelete, hhas, if_true]
        simp [cleanupSession, getSession, hx, statusOf, removeSession]
      rw [hnone] at h2
      exact absurd h2 (by simp)

/-- Witness for C1 (amended) on a concrete transition: a `research_start`
frame takes an idle session to processing, an allowed step. -/
theorem status_transitions_witness :
    AllowedStep (Op.wsMsg { event := "research_start" }) "idle" "processing" :=
  status_transitions exIdle "c1" (Op.wsMsg { event := "research_start" })
    "idle" "processing" (by decide) (by decide)

end DeepResearch

namespace DeepResearch

/-- After `ws.close()` on handle `cid`, no live handle carries id `cid`. -/
theorem closeConn_not_live_id (conns : List Conn) (cid : Nat) :
    ∀ c ∈ closeConn conns cid, c.live = true → c.id ≠ cid := by
  intro c hc hl hid
  simp only [closeConn, List.mem_map] at hc
  obtain ⟨c0, hc0, hceq⟩ := hc
  by_cases h : c0.id = cid
  · rw [if_pos (by simpa using h)] at hceq
    rw [← hceq] at hl
    simp at hl
  · rw [if_neg (by simpa using h)] at hceq
    rw [← hceq] at hid
    exact h hid

/-- If every live handle on stream `sid` was the one with id `cid`, then
after closing `cid` no live handle on `sid` remains. -/
theorem filter_closeConn_eq_nil (conns : List Conn) (cid : Nat) (sid : String)
    (hlive : ∀ c ∈ conns, c.live = true → c.sessionId = sid → c.id = cid) :
    (closeConn conns cid).filter (fun c => c.live && c.sessionId == sid) = [] := by
  rw [List.filter_eq_nil_iff]
  intro c hc
  simp only [Bool.and_eq_true, beq_iff_eq, not_and]
  intro hl hsid
  simp only [closeConn, List.mem_map] at hc
  obtain ⟨c0, hc0, hceq⟩ := hc
  by_cases h : c0.id = cid
  · rw [if_pos (by simpa using h)] at hceq
    rw [← hceq] at hl
    simp at hl
  · rw [if_neg (by simpa using h)] at hceq
    exact h (hlive c0 hc0 (by rw [hceq]; exact hl) (by rw [hceq]; exact hsid))

/-- C6: opening a new connection for a session that already has one
(`session.websocket = some cid`, the only possibly-live listener on its
stream) closes the prior socket before the new one is stored: the close
effect precedes the open effect, the prior handle is no longer live
anywhere, and at most one live listener on the session's stream remains. -/
theorem connect_replaces_listener (st : PluginState) (chatId sid : String)
    (session : Session) (cid : Nat)
    (hs : getSession st chatId = some session)
    (hw : session.websocket = some cid)
    (hcid : cid ≠ st.nextConnId)
    (hlive : ∀ c ∈ st.conns, c.live = true → c.sessionId = sid → c.id = cid) :
    (connectWebSocket st chatId sid).2 =
      [Effect.closeWebSocket cid,
       Effect.openWebSocket ((st.apiEndpoint.replace "http" "ws") ++ "/ws/" ++ sid)
         st.nextConnId] ∧
    cid ∉ liveIds (connectWebSocket st chatId sid).1 ∧
    (liveConnsFor (connectWebSocket st chatId sid).1 sid).length ≤ 1 := by
  have hconns : (connectWebSocket st chatId sid).1.conns
      = closeConn st.conns cid
          ++ [{ id := st.nextConnId, sessionId := sid, live := true }] := by
    simp [connectWebSocket, hs, hw, setSession]
  refine ⟨by simp [connectWebSocket, hs, hw], ?_, ?_⟩
  · intro hmem
    simp only [liveIds, hconns, List.filter_append, List.map_append,
      List.mem_append] at hmem
    rcases hmem with hmem | hmem
    · simp only [List.mem_map, List.mem_filter] at hmem
      obtain ⟨c, ⟨hc, hl⟩, hid⟩ := hmem
      exact closeConn_not_live_id st.conns cid c hc hl hid
    · simp at hmem
      exact hcid hmem
  · rw [liveConnsFor, hconns, List.filter_append,
      filter_closeConn_eq_nil st.conns cid sid hlive]
    simp

/-- Witness for C6 at a concrete session with one live prior handle. -/
theorem connect_replaces_listener_witness :
    (connectWebSocket exProcessing "c1" "s1").2 =
      [Effect.closeWebSocket 0,
       Effect.openWebSocket
         (exProcessing.apiEndpoint.replace "http" "ws" ++ "/ws/" ++ "s1") 1] ∧
    0 ∉ liveIds (connectWebSocket exProcessing "c1" "s1").1 ∧
    (liveConnsFor (connectWebSocket exProcessing "c1" "s1").1 "s1").length ≤ 1 := by
  have h := connect_replaces_listener exProcessing "c1" "s1"
    { sessionId := "s1", websocket := some 0, status := "processing" } 0 rfl rfl
    (by decide) (by decide)
  simpa using h

end DeepResearch
